import Mathlib

/-!
Verification of the tabular filter / aggregate / reshape pipeline of the
engineering-analytics dashboard.

Shallow embedding conventions:
* A fetched result table is a `Table`: a schema (`cols`, the column names of
  the frame) together with the rows.  A row is modelled as a `FactRow`
  carrying one field per column role the pipeline ever reads (repo,
  timestamp, reviewer, author, pr id, numeric measures).  The code only
  reads a field after checking that the corresponding column name is in the
  schema, so a field of a row whose column is not listed in `cols` is never
  consulted on the modelled paths.
* Machine floats of the source (means) are modelled as `Rat`; row counts as
  `Nat`.
* The timestamp column may hold either a raw (unparsed) value or an already
  parsed timestamp, mirroring the object-versus-datetime dtype distinction
  that `pd.to_datetime` normalizes.
-/

/-- Timestamp cell: either a raw unparsed value (object dtype) or a parsed
timestamp (datetime dtype), as distinguished by the dataframe library. -/
inductive TimeVal where
  | raw (s : String)
  | ts (t : Nat)
deriving DecidableEq

/-- Abstract model of the datetime parsing done by the external dataframe
library when `pd.to_datetime` meets raw values.  No verified claim depends
on the values this returns, only on the raw-versus-parsed distinction. -/
def parseTime (s : String) : Nat := s.toNat?.getD 0

/-- The timestamp a cell denotes after `pd.to_datetime` normalization. -/
def timeOf : TimeVal → Nat
  | .raw s => parseTime s
  | .ts t => t

/-- Truncation of a timestamp to a calendar date (`.dt.date`): day index. -/
def dateOf (v : TimeVal) : Nat := timeOf v / 86400

/-- The in-place `pd.to_datetime` conversion of a timestamp cell. -/
def toDatetime (v : TimeVal) : TimeVal := .ts (timeOf v)

/-- One row of the per-pull-request fact table (`FACT_PR_CYCLE_TIME`),
with one field per column role read by the pipeline. -/
structure FactRow where
  repo : String
  createdAt : TimeVal
  reviewer : String
  author : String
  prId : Nat
  cycleHrs : Rat
  linesAdded : Rat
  linesDeleted : Rat
deriving DecidableEq

/-- A fetched result table: schema (column names) plus rows. -/
structure Table where
  cols : List String
  rows : List FactRow
deriving DecidableEq

/-- The `.empty` test of the dataframe library: true when either axis has
length zero. -/
def Table.isEmpty (df : Table) : Bool := df.rows.isEmpty || df.cols.isEmpty

/-- The row with its timestamp cell normalized by `pd.to_datetime`. -/
def convertRow (r : FactRow) : FactRow := { r with createdAt := toDatetime r.createdAt }

/-- The whole-column `df[date_col] = pd.to_datetime(df[date_col])`
assignment applied to a table. -/
def Table.convertDates (df : Table) : Table := { df with rows := df.rows.map convertRow }

/-- The global-filter widget state kept in `st.session_state`: the selected
repo list (absent when the key was never written) and the selected date
range (absent likewise). -/
structure SessionState where
  selectedRepos : Option (List String)
  dateRange : Option (Nat × Nat)
deriving DecidableEq

/-- The repo branch of `apply_global_filters`: when a repo column name is
supplied, present in the schema, the session holds a selection, and that
selection is non-empty, keep the rows whose repo is selected; otherwise
pass the table through unchanged. -/
def repoFilterStep (sess : SessionState) (repoCol : Option String) (df : Table) : Table :=
  match repoCol, sess.selectedRepos with
  | some c, some repos =>
      if c ∈ df.cols ∧ repos ≠ [] then
        { df with rows := df.rows.filter (fun r => decide (r.repo ∈ repos)) }
      else df
  | _, _ => df

/-- The date branch of `apply_global_filters`: when a date column name is
supplied, present in the schema, and the session holds a date range, the
column is normalized with `pd.to_datetime` and only the rows whose
truncated calendar date lies in the inclusive range are kept. -/
def dateFilterStep (sess : SessionState) (dateCol : Option String) (df : Table) : Table :=
  match dateCol, sess.dateRange with
  | some c, some (s, e) =>
      if c ∈ df.cols then
        let keep : FactRow → Bool :=
          fun r => decide (s ≤ dateOf r.createdAt ∧ dateOf r.createdAt ≤ e)
        { df with rows := (df.rows.map convertRow).filter keep }
      else df
  | _, _ => df

/-- The value returned by `apply_global_filters`: an empty table is returned
unchanged; otherwise the repo filter is applied, then the date filter. -/
def apply_global_filters (sess : SessionState) (repoCol dateCol : Option String)
    (df : Table) : Table :=
  if df.isEmpty then df
  else dateFilterStep sess dateCol (repoFilterStep sess repoCol df)

/-- Whether the repo branch rebinds the local name to a fresh filtered frame
(this happens exactly when the repo filter actually runs), after which the
later in-place column assignment no longer aliases the caller object. -/
def repoRebinds (sess : SessionState) (repoCol : Option String) (df : Table) : Bool :=
  match repoCol, sess.selectedRepos with
  | some c, some repos => decide (c ∈ df.cols) && !repos.isEmpty
  | _, _ => false

/-- Whether the date branch executes its in-place column assignment. -/
def dateMutates (sess : SessionState) (dateCol : Option String) (df : Table) : Bool :=
  match dateCol, sess.dateRange with
  | some c, some _ => decide (c ∈ df.cols)
  | _, _ => false

/-- The contents of the caller-owned table object after a call to
`apply_global_filters`, modelling the pass-by-reference in-place column
assignment `df[date_col] = pd.to_datetime(df[date_col])`: it hits the
caller object exactly when the table was non-empty and the repo branch did
not rebind the local name first. -/
def apply_global_filters_effect (sess : SessionState) (repoCol dateCol : Option String)
    (df : Table) : Table :=
  if df.isEmpty then df
  else if repoRebinds sess repoCol df then df
  else if dateMutates sess dateCol df then df.convertDates
  else df

/-- The contents of the fetched `facts_preview` table after the sidebar
date-range setup, which assigns
`facts_preview["CREATED_AT"] = pd.to_datetime(facts_preview["CREATED_AT"])`
whenever the table is non-empty and has the column. -/
def sidebarDateSetup (facts : Table) : Table :=
  if facts.isEmpty = false ∧ "CREATED_AT" ∈ facts.cols then facts.convertDates else facts

/-- Projection of a row to every field except the timestamp cell. -/
def FactRow.stripTime (r : FactRow) :
    String × String × String × Nat × Rat × Rat × Rat :=
  (r.repo, r.reviewer, r.author, r.prId, r.cycleHrs, r.linesAdded, r.linesDeleted)

/-!
Aggregation / reshape layer.

The heatmap pipeline only consults the two categorical key columns, so the
group-by and pivot are defined over the projection of the table to its
(reviewer, author) pairs.
-/

/-- Number of occurrences of a (reviewer, author) pair among the fact rows:
the row count that `groupby([...]).size()` assigns to the pair. -/
def countPair (ps : List (String × String)) (k : String × String) : Nat :=
  (ps.filter (fun p => decide (p = k))).length

/-- Lexicographic comparison of strings through their character lists; it
agrees with the standard order on `String` (see `strLe_iff`) and is stated
this way so that concrete instances evaluate. -/
def strLe (a b : String) : Prop := a.data ≤ b.data

/-- Strict lexicographic comparison of strings through their character
lists. -/
def strLt (a b : String) : Prop := a.data < b.data

instance : DecidableRel strLe := fun _ _ => inferInstanceAs (Decidable (_ ≤ _))

instance : DecidableRel strLt := fun _ _ => inferInstanceAs (Decidable (_ < _))

/-- The evaluable string order agrees with the standard one. -/
theorem strLe_iff (a b : String) : strLe a b ↔ a ≤ b :=
  String.le_iff_toList_le.symm

/-- Lexicographic order on the pair of group keys, the order in which the
group-by emits its groups. -/
def pairLe (x y : String × String) : Prop :=
  strLt x.1 y.1 ∨ (x.1 = y.1 ∧ strLe x.2 y.2)

instance : DecidableRel pairLe := fun _ _ =>
  inferInstanceAs (Decidable (_ ∨ _))

/-- Sorted distinct values of a column: `sorted(series.unique())`, and also
the row or column index that a group-by or pivot produces. -/
def sortedDistinct (l : List String) : List String :=
  List.insertionSort strLe l.dedup

/-- The long-form grouped table `df.groupby(["REVIEWER", "AUTHOR"]).size()`:
one row per observed (reviewer, author) pair, in group-key order, carrying
the row count of the pair. -/
def groupPairs (ps : List (String × String)) : List ((String × String) × Nat) :=
  (List.insertionSort pairLe ps.dedup).map (fun k => (k, countPair ps k))

/-- Positional lookup of a key in the long-form grouped table, as done by
the reshape when it fills the cell for a (row, column) label pair. -/
def alookup (k : String × String) : List ((String × String) × Nat) → Option Nat
  | [] => none
  | (k0, v) :: rest => if k = k0 then some v else alookup k rest

/-- The `hm.pivot(index=..., columns=..., values=...).fillna(0)` reshape:
fails when the (index, columns) key pairs of the long-form table contain
duplicates; otherwise produces the sorted distinct row labels, the sorted
distinct column labels, and the dense matrix whose (r, c) cell is the value
stored for that key pair, with absent pairs filled with zero. -/
def pivotE (hm : List ((String × String) × Nat)) :
    Except String (List String × List String × List (List Nat)) :=
  if (hm.map (fun x => x.1)).Nodup then
    let rls := sortedDistinct (hm.map (fun x => x.1.1))
    let cls := sortedDistinct (hm.map (fun x => x.1.2))
    .ok (rls, cls, rls.map (fun r => cls.map (fun c => (alookup (r, c) hm).getD 0)))
  else .error "Index contains duplicate entries, cannot reshape"

/-- Projection of the fact table to its (reviewer, author) key pairs. -/
def heatmapPairs (df : Table) : List (String × String) :=
  df.rows.map (fun r => (r.reviewer, r.author))

/-- The two columns the heatmap page requires of the fact table. -/
def requiredCols : List String := ["REVIEWER", "PR_AUTHOR"]

/-- Outcome of the reviewer-author heatmap page body. -/
inductive Hres where
  | noData
  | missingCols (missing : List String)
  | pivotFailure (msg : String)
  | ok (reviewers authors : List String) (matrix : List (List Nat))
      (hm : List ((String × String) × Nat))
deriving DecidableEq

/-- The reviewer-author heatmap page: an empty fetched table takes the
graceful no-data path; then a missing required column is a fatal error;
otherwise the rows are grouped by (reviewer, author), the sorted distinct
label lists are computed from the grouped table, and the grouped table is
pivoted into the dense count matrix handed to the chart. -/
def heatmapPage (df : Table) : Hres :=
  if df.isEmpty then .noData
  else
    let missing := requiredCols.filter (fun c => decide (c ∉ df.cols))
    if missing.isEmpty then
      let hm := groupPairs (heatmapPairs df)
      match pivotE hm with
      | .ok (_, _, m) =>
          .ok (sortedDistinct (hm.map (fun x => x.1.1)))
              (sortedDistinct (hm.map (fun x => x.1.2))) m hm
      | .error e => .pivotFailure e
    else .missingCols missing

/-- Whether the reshape step of the heatmap pipeline succeeds on a table. -/
def pivotSucceeds (df : Table) : Bool :=
  match pivotE (groupPairs (heatmapPairs df)) with
  | .ok _ => true
  | .error _ => false

/-- Whether a page outcome is the fatal missing-column report. -/
def Hres.isMissing : Hres → Bool
  | .missingCols _ => true
  | _ => false

/-!
Contributor leaderboard page.
-/

/-- Arithmetic mean of a numeric column, as the `"mean"` reduction
computes it. -/
def meanR (xs : List Rat) : Rat := xs.sum / (xs.length : Rat)

/-- The rows of one author group: `groupby("PR_AUTHOR")` membership. -/
def groupRows (facts : List FactRow) (a : String) : List FactRow :=
  facts.filter (fun r => decide (r.author = a))

/-- One row of the leaderboard metrics frame. -/
structure LbRow where
  author : String
  prCount : Nat
  avgCycle : Rat
  avgLA : Rat
  avgLD : Rat
deriving DecidableEq

/-- The `.agg` of the leaderboard: one output row per distinct author (in
group-key order).  Each aggregate uses its real reduction when its source
column is present and silently falls back to the group row count
(`("PR_AUTHOR", "size")`) when it is absent: count-distinct of `PR_ID` for
`PR_COUNT`, means of the numeric measures for the `AVG_*` columns. -/
def lbMetrics (facts : List FactRow) (hasId hasCy hasLA hasLD : Bool) : List LbRow :=
  (sortedDistinct (facts.map FactRow.author)).map (fun a =>
    let g := groupRows facts a
    { author := a
      prCount := if hasId then ((g.map FactRow.prId).dedup).length else g.length
      avgCycle := if hasCy then meanR (g.map FactRow.cycleHrs) else (g.length : Rat)
      avgLA := if hasLA then meanR (g.map FactRow.linesAdded) else (g.length : Rat)
      avgLD := if hasLD then meanR (g.map FactRow.linesDeleted) else (g.length : Rat) })

/-- Descending comparison on the primary reduced measure `PR_COUNT`, the
key of `sort_values("PR_COUNT", ascending=False)`. -/
def lbGE (x y : LbRow) : Prop := y.prCount ≤ x.prCount

instance : DecidableRel lbGE := fun x y => Nat.decLe y.prCount x.prCount

/-- The leaderboard metrics frame sorted descending by `PR_COUNT`. -/
def lbSorted (facts : List FactRow) (hasId hasCy hasLA hasLD : Bool) : List LbRow :=
  List.insertionSort lbGE (lbMetrics facts hasId hasCy hasLA hasLD)

/-- The rows fed to the top-contributors bar chart: `.head(20)` of the
sorted metrics. -/
def lbChart (facts : List FactRow) (hasId hasCy hasLA hasLD : Bool) : List LbRow :=
  (lbSorted facts hasId hasCy hasLA hasLD).take 20

/-- Outcome of the contributor leaderboard page body. -/
inductive LbRes where
  | noData
  | ok (metrics : List LbRow)
deriving DecidableEq

/-- The contributor leaderboard page: an empty filtered table or an absent
author column takes the warning path; otherwise the metrics are computed
with per-column presence fallbacks and sorted descending by `PR_COUNT`. -/
def lbPage (df : Table) : LbRes :=
  if df.isEmpty || decide ("PR_AUTHOR" ∉ df.cols) then .noData
  else .ok (lbSorted df.rows (decide ("PR_ID" ∈ df.cols))
      (decide ("PR_CYCLE_TIME_HOURS" ∈ df.cols))
      (decide ("LINES_ADDED" ∈ df.cols))
      (decide ("LINES_DELETED" ∈ df.cols)))

/-!
Query gateway and caching.

`app_advanced.py` wraps its `run_query` in `st.cache_data(ttl=600)`: results
are cached keyed by the literal SQL string for a 600 second freshness
window.  The helper `utils/snowflake.py::run_query`, which is the entry
point imported by every file under `pages/`, has no cache decorator at all.
The external warehouse is modelled as a function from SQL text to a result
table, and the number of round trips to it is counted explicitly.
-/

/-- Cache and call-counter state for the query gateway. -/
structure CacheState where
  entries : List (String × Nat × Table)
  calls : Nat
deriving DecidableEq

/-- The freshness window of `st.cache_data(ttl=600)`, in seconds. -/
def cacheTTL : Nat := 600

/-- A cache probe: the stored result for this SQL string, provided an entry
exists and is younger than the freshness window. -/
def lookupFresh (now : Nat) (sql : String) (es : List (String × Nat × Table)) :
    Option Table :=
  match es.lookup sql with
  | some (t, df) => if now < t + cacheTTL then some df else none
  | none => none

/-- The cached `run_query` of `app_advanced.py`: a fresh cache hit returns
the stored table without touching the warehouse; otherwise the warehouse is
called, the entry is stored with the current time, and the round-trip
counter advances. -/
def run_query (src : String → Table) (now : Nat) (sql : String) (s : CacheState) :
    Table × CacheState :=
  match lookupFresh now sql s.entries with
  | some df => (df, s)
  | none =>
      let df := src sql
      (df, { entries := (sql, now, df) :: s.entries.filter (fun e => decide (e.1 ≠ sql))
             calls := s.calls + 1 })

/-- The undecorated `run_query` of `utils/snowflake.py`, imported by every
file under `pages/`: it always executes the query against the warehouse. -/
def utils_run_query (src : String → Table) (sql : String) (s : CacheState) :
    Table × CacheState :=
  (src sql, { s with calls := s.calls + 1 })

/-!
Helper lemmas about the sorting, grouping and lookup primitives.
-/

instance : IsTotal String strLe :=
  ⟨fun a b => by rw [strLe_iff, strLe_iff]; exact le_total a b⟩

instance : IsTrans String strLe :=
  ⟨fun a b c h1 h2 => by
    rw [strLe_iff] at h1 h2 ⊢; exact le_trans h1 h2⟩

instance : IsAntisymm String strLe :=
  ⟨fun a b h1 h2 => by
    rw [strLe_iff] at h1 h2; exact le_antisymm h1 h2⟩

instance : IsTotal LbRow lbGE :=
  ⟨fun x y => Nat.le_total y.prCount x.prCount⟩

instance : IsTrans LbRow lbGE :=
  ⟨fun _ _ _ h1 h2 => Nat.le_trans h2 h1⟩

theorem mem_sortedDistinct {a : String} {l : List String} :
    a ∈ sortedDistinct l ↔ a ∈ l := by
  unfold sortedDistinct
  rw [(List.perm_insertionSort strLe l.dedup).mem_iff, List.mem_dedup]

theorem nodup_sortedDistinct (l : List String) : (sortedDistinct l).Nodup :=
  ((List.perm_insertionSort strLe l.dedup).nodup_iff).mpr l.nodup_dedup

theorem sorted_sortedDistinct (l : List String) : (sortedDistinct l).Sorted strLe :=
  List.sorted_insertionSort strLe l.dedup

theorem sortedDistinct_congr {l1 l2 : List String} (h : ∀ a, a ∈ l1 ↔ a ∈ l2) :
    sortedDistinct l1 = sortedDistinct l2 := by
  refine List.eq_of_perm_of_sorted ?_ (sorted_sortedDistinct l1) (sorted_sortedDistinct l2)
  refine (List.perm_ext_iff_of_nodup (nodup_sortedDistinct l1) (nodup_sortedDistinct l2)).mpr ?_
  intro a
  rw [mem_sortedDistinct, mem_sortedDistinct]
  exact h a

theorem countPair_eq_zero {ps : List (String × String)} {k : String × String}
    (h : k ∉ ps) : countPair ps k = 0 := by
  unfold countPair
  rw [List.length_eq_zero, List.filter_eq_nil_iff]
  intro p hp
  simp only [decide_eq_true_eq]
  intro hpk
  exact h (hpk ▸ hp)

theorem alookup_map_self (f : String × String → Nat) (k : String × String) :
    ∀ keys : List (String × String),
      alookup k (keys.map (fun x => (x, f x))) = if k ∈ keys then some (f k) else none := by
  intro keys
  induction keys with
  | nil => simp [alookup]
  | cons x rest ih =>
      by_cases hx : k = x
      · subst hx
        simp [alookup]
      · simp [alookup, hx, ih, List.mem_cons]

theorem groupPairs_keys (ps : List (String × String)) :
    (groupPairs ps).map (fun x => x.1) = List.insertionSort pairLe ps.dedup := by
  unfold groupPairs
  rw [List.map_map]
  exact List.map_id _

theorem mem_groupPairs_keys {ps : List (String × String)} {k : String × String} :
    k ∈ (groupPairs ps).map (fun x => x.1) ↔ k ∈ ps := by
  rw [groupPairs_keys, (List.perm_insertionSort pairLe ps.dedup).mem_iff, List.mem_dedup]

theorem nodup_groupPairs_keys (ps : List (String × String)) :
    ((groupPairs ps).map (fun x => x.1)).Nodup := by
  rw [groupPairs_keys]
  exact ((List.perm_insertionSort pairLe ps.dedup).nodup_iff).mpr ps.nodup_dedup

theorem alookup_groupPairs (ps : List (String × String)) (k : String × String) :
    (alookup k (groupPairs ps)).getD 0 = countPair ps k := by
  unfold groupPairs
  rw [alookup_map_self]
  by_cases hk : k ∈ List.insertionSort pairLe ps.dedup
  · rw [if_pos hk]; rfl
  · rw [if_neg hk, Option.getD_none]
    have hk2 : k ∉ ps := by
      rw [(List.perm_insertionSort pairLe ps.dedup).mem_iff, List.mem_dedup] at hk
      exact hk
    exact (countPair_eq_zero hk2).symm

theorem groupPairs_label_fst (ps : List (String × String)) :
    sortedDistinct ((groupPairs ps).map (fun x => x.1.1)) =
      sortedDistinct (ps.map Prod.fst) := by
  apply sortedDistinct_congr
  intro a
  have h1 : (groupPairs ps).map (fun x => x.1.1)
      = ((groupPairs ps).map (fun x => x.1)).map Prod.fst := by
    rw [List.map_map]; rfl
  rw [h1]
  constructor
  · intro h
    rcases List.mem_map.mp h with ⟨k, hk, rfl⟩
    exact List.mem_map.mpr ⟨k, mem_groupPairs_keys.mp hk, rfl⟩
  · intro h
    rcases List.mem_map.mp h with ⟨k, hk, rfl⟩
    exact List.mem_map.mpr ⟨k, mem_groupPairs_keys.mpr hk, rfl⟩

theorem groupPairs_label_snd (ps : List (String × String)) :
    sortedDistinct ((groupPairs ps).map (fun x => x.1.2)) =
      sortedDistinct (ps.map Prod.snd) := by
  apply sortedDistinct_congr
  intro a
  have h1 : (groupPairs ps).map (fun x => x.1.2)
      = ((groupPairs ps).map (fun x => x.1)).map Prod.snd := by
    rw [List.map_map]; rfl
  rw [h1]
  constructor
  · intro h
    rcases List.mem_map.mp h with ⟨k, hk, rfl⟩
    exact List.mem_map.mpr ⟨k, mem_groupPairs_keys.mp hk, rfl⟩
  · intro h
    rcases List.mem_map.mp h with ⟨k, hk, rfl⟩
    exact List.mem_map.mpr ⟨k, mem_groupPairs_keys.mpr hk, rfl⟩

theorem pivotE_groupPairs (ps : List (String × String)) :
    pivotE (groupPairs ps) =
      Except.ok (sortedDistinct (ps.map Prod.fst), sortedDistinct (ps.map Prod.snd),
        (sortedDistinct (ps.map Prod.fst)).map (fun r =>
          (sortedDistinct (ps.map Prod.snd)).map (fun c => countPair ps (r, c)))) := by
  unfold pivotE
  rw [if_pos (nodup_groupPairs_keys ps)]
  have hcell : ∀ r c : String, (alookup (r, c) (groupPairs ps)).getD 0 = countPair ps (r, c) :=
    fun r c => alookup_groupPairs ps (r, c)
  simp only [groupPairs_label_fst, groupPairs_label_snd, hcell]

theorem heatmapPage_ok (df : Table) (hne : df.isEmpty = false)
    (h1 : "REVIEWER" ∈ df.cols) (h2 : "PR_AUTHOR" ∈ df.cols) :
    heatmapPage df = Hres.ok
      (sortedDistinct ((heatmapPairs df).map Prod.fst))
      (sortedDistinct ((heatmapPairs df).map Prod.snd))
      ((sortedDistinct ((heatmapPairs df).map Prod.fst)).map (fun r =>
        (sortedDistinct ((heatmapPairs df).map Prod.snd)).map (fun c =>
          countPair (heatmapPairs df) (r, c))))
      (groupPairs (heatmapPairs df)) := by
  unfold heatmapPage
  rw [hne]
  simp only [Bool.false_eq_true, if_false, requiredCols]
  have hf : ["REVIEWER", "PR_AUTHOR"].filter (fun c => decide (c ∉ df.cols)) = [] := by
    simp [h1, h2]
  rw [hf]
  simp only [List.isEmpty_nil, if_true]
  rw [pivotE_groupPairs]
  rw [groupPairs_label_fst, groupPairs_label_snd]

/-!
Concrete fixtures used by witnesses and counterexamples.
-/

/-- A fact row with the given reviewer and author and neutral other cells. -/
def rowRA (rev auth : String) : FactRow :=
  { repo := "r", createdAt := .ts 0, reviewer := rev, author := auth,
    prId := 0, cycleHrs := 0, linesAdded := 0, linesDeleted := 0 }

/-- The fact table of the specification example: rows (A,X), (A,X), (B,Y). -/
def exTable : Table :=
  { cols := ["REVIEWER", "PR_AUTHOR"], rows := [rowRA "A" "X", rowRA "A" "X", rowRA "B" "Y"] }

/-- A zero-row fetched table whose schema lacks both required columns. -/
def emptyMissingTable : Table := { cols := ["PR_ID"], rows := [] }

/-- A non-empty fetched table whose schema lacks both required columns. -/
def missingColsTable : Table := { cols := ["PR_ID"], rows := [rowRA "A" "X"] }

/-!
Claim theorems.
-/

/-- C1: for every input fact table containing the reviewer and author
columns, the pairwise pivot produces the dense matrix indexed by the sorted
distinct reviewers (rows) and sorted distinct authors (columns), whose
(r, a) cell is the exact number of input rows with that pair, zero for
pairs that never occur. -/
theorem heatmap_pivot_dense_counts (df : Table) (hne : df.isEmpty = false)
    (h1 : "REVIEWER" ∈ df.cols) (h2 : "PR_AUTHOR" ∈ df.cols) :
    heatmapPage df = Hres.ok
      (sortedDistinct ((heatmapPairs df).map Prod.fst))
      (sortedDistinct ((heatmapPairs df).map Prod.snd))
      ((sortedDistinct ((heatmapPairs df).map Prod.fst)).map (fun r =>
        (sortedDistinct ((heatmapPairs df).map Prod.snd)).map (fun c =>
          countPair (heatmapPairs df) (r, c))))
      (groupPairs (heatmapPairs df)) :=
  heatmapPage_ok df hne h1 h2

/-- Witness for C1: the specification example rows (A,X), (A,X), (B,Y)
pivot to the dense matrix with rows A, B, columns X, Y and cells
2, 0 / 0, 1. -/
theorem heatmap_pivot_dense_counts_witness :
    exTable.isEmpty = false ∧ "REVIEWER" ∈ exTable.cols ∧ "PR_AUTHOR" ∈ exTable.cols ∧
    heatmapPage exTable =
      Hres.ok ["A", "B"] ["X", "Y"] [[2, 0], [0, 1]] [(("A", "X"), 2), (("B", "Y"), 1)] :=
  ⟨rfl, by decide, by decide,
    (heatmap_pivot_dense_counts exTable rfl (by decide) (by decide)).trans (by decide)⟩

/-- C2 counterexample: a zero-row input table from which both required
columns are absent is reported as the graceful no-data state, not as the
fatal missing-column error the claim requires. -/
theorem empty_missing_column_takes_nodata_path :
    Hres.isMissing (heatmapPage emptyMissingTable) = false ∧
    heatmapPage emptyMissingTable = Hres.noData := by decide

/-- C2 amended: for every NON-empty input table from which a required
column is absent, the page reports the fatal missing-column error before
any reduction is attempted; a zero-row table instead takes the graceful
no-data path regardless of its schema. -/
theorem missing_column_fatal_on_nonempty (df : Table) (hne : df.isEmpty = false)
    (hmiss : requiredCols.filter (fun c => decide (c ∉ df.cols)) ≠ []) :
    heatmapPage df = Hres.missingCols (requiredCols.filter (fun c => decide (c ∉ df.cols))) := by
  unfold heatmapPage
  rw [hne]
  have hie : (requiredCols.filter (fun c => decide (c ∉ df.cols))).isEmpty = false := by
    cases hf : requiredCols.filter (fun c => decide (c ∉ df.cols)) with
    | nil => exact absurd hf hmiss
    | cons x xs => rfl
  simp only [Bool.false_eq_true, if_false, hie]

/-- Witness for the amended C2: a one-row table whose schema lacks both
required columns is reported with exactly those missing columns. -/
theorem missing_column_fatal_on_nonempty_witness :
    missingColsTable.isEmpty = false ∧
    requiredCols.filter (fun c => decide (c ∉ missingColsTable.cols)) ≠ [] ∧
    heatmapPage missingColsTable = Hres.missingCols ["REVIEWER", "PR_AUTHOR"] :=
  ⟨rfl, by decide,
    (missing_column_fatal_on_nonempty missingColsTable rfl (by decide)).trans (by decide)⟩

/-- C8: on a non-empty table with both key columns, the rendered label
lists are exactly the distinct reviewer and author values observed in the
rows (no stale labels), without duplicates, in sorted order, and the pivot
matrix has exactly one row per reviewer label and one cell per author
label in each row. -/
theorem heatmap_labels_exact (df : Table) (hne : df.isEmpty = false)
    (h1 : "REVIEWER" ∈ df.cols) (h2 : "PR_AUTHOR" ∈ df.cols) :
    ∀ R A M hm, heatmapPage df = Hres.ok R A M hm →
      (∀ x, x ∈ R ↔ x ∈ df.rows.map FactRow.reviewer) ∧ R.Nodup ∧ R.Sorted (· ≤ ·) ∧
      (∀ x, x ∈ A ↔ x ∈ df.rows.map FactRow.author) ∧ A.Nodup ∧ A.Sorted (· ≤ ·) ∧
      M.length = R.length ∧ (∀ row ∈ M, row.length = A.length) := by
  intro R A M hm h
  rw [heatmapPage_ok df hne h1 h2] at h
  have hR : R = sortedDistinct ((heatmapPairs df).map Prod.fst) := by
    cases h; rfl
  have hA : A = sortedDistinct ((heatmapPairs df).map Prod.snd) := by
    cases h; rfl
  have hM : M = (sortedDistinct ((heatmapPairs df).map Prod.fst)).map (fun r =>
      (sortedDistinct ((heatmapPairs df).map Prod.snd)).map (fun c =>
        countPair (heatmapPairs df) (r, c))) := by
    cases h; rfl
  have hrev : (heatmapPairs df).map Prod.fst = df.rows.map FactRow.reviewer := by
    unfold heatmapPairs
    rw [List.map_map]
    rfl
  have hauth : (heatmapPairs df).map Prod.snd = df.rows.map FactRow.author := by
    unfold heatmapPairs
    rw [List.map_map]
    rfl
  subst hR hA hM
  refine ⟨?_, nodup_sortedDistinct _, ?_, ?_, nodup_sortedDistinct _, ?_, ?_, ?_⟩
  · intro x
    rw [mem_sortedDistinct, hrev]
  · exact (sorted_sortedDistinct _).imp (fun hab => (strLe_iff _ _).mp hab)
  · intro x
    rw [mem_sortedDistinct, hauth]
  · exact (sorted_sortedDistinct _).imp (fun hab => (strLe_iff _ _).mp hab)
  · rw [List.length_map]
  · intro row hrow
    rcases List.mem_map.mp hrow with ⟨r, _, rfl⟩
    rw [List.length_map]

/-- Witness for C8 at the specification example table. -/
theorem heatmap_labels_exact_witness :
    exTable.isEmpty = false ∧
    ((∀ x, x ∈ (["A", "B"] : List String) ↔ x ∈ exTable.rows.map FactRow.reviewer) ∧
      (["A", "B"] : List String).Nodup ∧ (["A", "B"] : List String).Sorted (· ≤ ·) ∧
      (∀ x, x ∈ (["X", "Y"] : List String) ↔ x ∈ exTable.rows.map FactRow.author) ∧
      (["X", "Y"] : List String).Nodup ∧ (["X", "Y"] : List String).Sorted (· ≤ ·) ∧
      ([[2, 0], [0, 1]] : List (List Nat)).length = (["A", "B"] : List String).length ∧
      (∀ row ∈ ([[2, 0], [0, 1]] : List (List Nat)),
        row.length = (["X", "Y"] : List String).length)) :=
  ⟨rfl, heatmap_labels_exact exTable rfl (by decide) (by decide)
    ["A", "B"] ["X", "Y"] [[2, 0], [0, 1]] [(("A", "X"), 2), (("B", "Y"), 1)] (by decide)⟩

/-- C9: for every fact table, the long-form grouped table has pairwise
distinct (reviewer, author) keys, so the duplicate-entry failure branch of
the pivot is unreachable and the heatmap reshape is total. -/
theorem groupby_pivot_total (df : Table) :
    ((groupPairs (heatmapPairs df)).map (fun x => x.1)).Nodup ∧
    pivotSucceeds df = true := by
  refine ⟨nodup_groupPairs_keys _, ?_⟩
  unfold pivotSucceeds
  rw [pivotE_groupPairs]

/-- Normalizing a timestamp cell does not change the time it denotes. -/
theorem timeOf_toDatetime (v : TimeVal) : timeOf (toDatetime v) = timeOf v := rfl

/-- Normalizing a row does not change its truncated calendar date. -/
theorem dateOf_convertRow (r : FactRow) :
    dateOf (convertRow r).createdAt = dateOf r.createdAt := rfl

/-- C3: the filter layer is the identity in its inclusive-default and
empty-input cases: an empty selected-repo set passes every table through
unchanged (both in the repo step alone and in the whole filter call when no
date predicate is given), and a table that is empty is returned unchanged
whatever the predicates are. -/
theorem filters_inclusive_default_and_empty_noop (sess : SessionState)
    (rc dc : Option String) (df : Table) :
    (sess.selectedRepos = some [] → repoFilterStep sess rc df = df) ∧
    (sess.selectedRepos = some [] → apply_global_filters sess rc none df = df) ∧
    (df.isEmpty = true → apply_global_filters sess rc dc df = df) := by
  have hrepo : sess.selectedRepos = some [] → repoFilterStep sess rc df = df := by
    intro h
    unfold repoFilterStep
    cases rc with
    | none => rfl
    | some c => rw [h]; simp
  have hdate : dateFilterStep sess none df = df := by
    unfold dateFilterStep
    rcases sess.dateRange with _ | ⟨s, e⟩ <;> rfl
  refine ⟨hrepo, ?_, ?_⟩
  · intro h
    unfold apply_global_filters
    by_cases he : df.isEmpty
    · rw [if_pos he]
    · rw [if_neg he, hrepo h]
      exact hdate
  · intro h
    simp [apply_global_filters, h]

/-- Witness for C3 at concrete states: an empty repo selection filters
nothing, and an empty table passes through even with active predicates. -/
theorem filters_inclusive_default_and_empty_noop_witness :
    ((⟨some [], some (0, 5)⟩ : SessionState).selectedRepos = some [] ∧
      repoFilterStep ⟨some [], some (0, 5)⟩ (some "REPO") exTable = exTable) ∧
    apply_global_filters ⟨some [], some (0, 5)⟩ (some "REPO") none exTable = exTable ∧
    (emptyMissingTable.isEmpty = true ∧
      apply_global_filters ⟨some [], some (0, 5)⟩ (some "REPO") (some "CREATED_AT")
        emptyMissingTable = emptyMissingTable) :=
  ⟨⟨rfl, (filters_inclusive_default_and_empty_noop ⟨some [], some (0, 5)⟩
      (some "REPO") (some "CREATED_AT") exTable).1 rfl⟩,
    (filters_inclusive_default_and_empty_noop ⟨some [], some (0, 5)⟩
      (some "REPO") none exTable).2.1 rfl,
    ⟨rfl, (filters_inclusive_default_and_empty_noop ⟨some [], some (0, 5)⟩
      (some "REPO") (some "CREATED_AT") emptyMissingTable).2.2 rfl⟩⟩

/-- C4: with an active date range, the date filter keeps exactly the
(normalized) rows whose timestamp, truncated to a calendar date, lies in
the inclusive range: a row is in the output precisely when it comes from an
input row whose truncated date d satisfies start ≤ d and d ≤ end. -/
theorem date_range_filter_inclusive (sess : SessionState) (c : String) (df : Table)
    (s e : Nat) (hdr : sess.dateRange = some (s, e)) (hc : c ∈ df.cols) :
    ∀ r : FactRow,
      r ∈ (dateFilterStep sess (some c) df).rows ↔
        ∃ r0, r0 ∈ df.rows ∧ r = convertRow r0 ∧
          s ≤ dateOf r0.createdAt ∧ dateOf r0.createdAt ≤ e := by
  intro r
  unfold dateFilterStep
  rw [hdr]
  show r ∈ (if c ∈ df.cols then
      Table.mk df.cols ((df.rows.map convertRow).filter
        (fun r => decide (s ≤ dateOf r.createdAt ∧ dateOf r.createdAt ≤ e)))
    else df).rows ↔ _
  rw [if_pos hc]
  simp only [List.mem_filter, List.mem_map, decide_eq_true_eq]
  constructor
  · rintro ⟨⟨r0, hr0, rfl⟩, hpred⟩
    rw [dateOf_convertRow] at hpred
    exact ⟨r0, hr0, rfl, hpred⟩
  · rintro ⟨r0, hr0, rfl, hs, he⟩
    refine ⟨⟨r0, hr0, rfl⟩, ?_⟩
    rw [dateOf_convertRow]
    exact ⟨hs, he⟩

/-- A fact row whose timestamp cell holds the given parsed time. -/
def rowAtTime (t : Nat) : FactRow :=
  { repo := "r", createdAt := .ts t, reviewer := "A", author := "X",
    prId := 0, cycleHrs := 0, linesAdded := 0, linesDeleted := 0 }

/-- A table whose two rows fall on day 1 and day 3. -/
def dateTable : Table :=
  { cols := ["REPO", "CREATED_AT"], rows := [rowAtTime 86400, rowAtTime 259200] }

/-- Witness for C4: with range [1, 2], the day-1 row (the lower boundary)
is kept. -/
theorem date_range_filter_inclusive_witness :
    (⟨none, some (1, 2)⟩ : SessionState).dateRange = some (1, 2) ∧
    "CREATED_AT" ∈ dateTable.cols ∧
    (convertRow (rowAtTime 86400) ∈
        (dateFilterStep ⟨none, some (1, 2)⟩ (some "CREATED_AT") dateTable).rows ↔
      ∃ r0, r0 ∈ dateTable.rows ∧ convertRow (rowAtTime 86400) = convertRow r0 ∧
        1 ≤ dateOf r0.createdAt ∧ dateOf r0.createdAt ≤ 2) :=
  ⟨rfl, by decide,
    date_range_filter_inclusive ⟨none, some (1, 2)⟩ "CREATED_AT" dateTable 1 2 rfl
      (by decide) (convertRow (rowAtTime 86400))⟩

/-- A non-empty fetched table with a raw (string dtype) timestamp cell. -/
def mutTable : Table :=
  { cols := ["REPO", "CREATED_AT", "REVIEWER", "PR_AUTHOR"],
    rows := [{ repo := "r1", createdAt := .raw "5", reviewer := "A", author := "X",
               prId := 1, cycleHrs := 1, linesAdded := 1, linesDeleted := 1 }] }

/-- A session whose repo selection is empty and whose date range is set. -/
def mutSess : SessionState := { selectedRepos := some [], dateRange := some (0, 10) }

/-- C7 counterexample: a filter call leaves the caller-owned fetched table
with different contents (its timestamp column was converted in place), so
fetched tables are not immutable for the duration of a render. -/
theorem apply_filters_mutates_caller_table :
    apply_global_filters_effect mutSess (some "REPO") (some "CREATED_AT") mutTable
      ≠ mutTable := by decide

/-- C7 amended: the only caller-visible change a pipeline operation makes
to a fetched table is the in-place `pd.to_datetime` normalization of its
timestamp column: the schema, every non-timestamp field and the time each
timestamp denotes are preserved by both the filter call and the sidebar
date setup. -/
theorem pipeline_mutation_only_normalizes_dates (sess : SessionState)
    (rc dc : Option String) (df : Table) :
    ((apply_global_filters_effect sess rc dc df).cols = df.cols ∧
      (apply_global_filters_effect sess rc dc df).rows.map FactRow.stripTime
        = df.rows.map FactRow.stripTime ∧
      (apply_global_filters_effect sess rc dc df).rows.map (fun r => timeOf r.createdAt)
        = df.rows.map (fun r => timeOf r.createdAt)) ∧
    ((sidebarDateSetup df).cols = df.cols ∧
      (sidebarDateSetup df).rows.map FactRow.stripTime = df.rows.map FactRow.stripTime ∧
      (sidebarDateSetup df).rows.map (fun r => timeOf r.createdAt)
        = df.rows.map (fun r => timeOf r.createdAt)) := by
  have hconv : ∀ t : Table, t.convertDates.cols = t.cols ∧
      t.convertDates.rows.map FactRow.stripTime = t.rows.map FactRow.stripTime ∧
      t.convertDates.rows.map (fun r => timeOf r.createdAt)
        = t.rows.map (fun r => timeOf r.createdAt) := by
    intro t
    refine ⟨rfl, ?_, ?_⟩
    · simp [Table.convertDates, List.map_map, Function.comp, convertRow, FactRow.stripTime]
    · simp [Table.convertDates, List.map_map, Function.comp, convertRow, toDatetime, timeOf]
  constructor
  · unfold apply_global_filters_effect
    split
    · exact ⟨rfl, rfl, rfl⟩
    · split
      · exact ⟨rfl, rfl, rfl⟩
      · split
        · exact hconv df
        · exact ⟨rfl, rfl, rfl⟩
  · unfold sidebarDateSetup
    split
    · exact hconv df
    · exact ⟨rfl, rfl, rfl⟩

/-!
Leaderboard claim theorems.
-/

/-- The fact rows of the leaderboard example of the specification: group
key in the author column, measure 3, 5, 10 in the cycle-time column. -/
def exLbRow (a : String) (v : Rat) : FactRow :=
  { repo := "r", createdAt := .ts 0, reviewer := "R", author := a,
    prId := 0, cycleHrs := v, linesAdded := 0, linesDeleted := 0 }

/-- The example rows: two rows for author a (values 3 and 5), one for
author b (value 10). -/
def exLb : List FactRow := [exLbRow "a" 3, exLbRow "a" 5, exLbRow "b" 10]

/-- C5 counterexample: on the example rows with mean-reduce on the measure,
the code orders the output by its fixed primary measure PR_COUNT (here the
fallback row count: a has 2 rows, b has 1), giving [a, b]; the claimed
order [b, a] (descending by the mean) does not hold. -/
theorem leaderboard_example_order_refuted :
    ¬ ((lbSorted exLb false true false false).map LbRow.author = ["b", "a"]) := by
  decide

/-- C5 amended: the leaderboard groups rows by one categorical key, reduces
each group by count-distinct of the id column or mean of a numeric column
(with row-count fallbacks), and returns the groups sorted descending by the
primary reduced measure PR_COUNT, with the chart truncated to the top 20;
on the example rows the means are a = 4.0 and b = 10.0 but the order is
[a, b] (a has the larger PR_COUNT), not [b, a]. -/
theorem leaderboard_reduce_spec (facts : List FactRow) (hasId hasCy hasLA hasLD : Bool) :
    List.Sorted lbGE (lbSorted facts hasId hasCy hasLA hasLD) ∧
    (lbSorted facts hasId hasCy hasLA hasLD).Perm (lbMetrics facts hasId hasCy hasLA hasLD) ∧
    (lbMetrics facts hasId hasCy hasLA hasLD).map LbRow.author
      = sortedDistinct (facts.map FactRow.author) ∧
    (∀ lr ∈ lbSorted facts hasId hasCy hasLA hasLD,
      lr.prCount = (if hasId then ((groupRows facts lr.author).map FactRow.prId).dedup.length
        else (groupRows facts lr.author).length) ∧
      lr.avgCycle = (if hasCy then meanR ((groupRows facts lr.author).map FactRow.cycleHrs)
        else ((groupRows facts lr.author).length : Rat))) ∧
    lbChart facts hasId hasCy hasLA hasLD = (lbSorted facts hasId hasCy hasLA hasLD).take 20 ∧
    (lbChart facts hasId hasCy hasLA hasLD).length ≤ 20 := by
  refine ⟨List.sorted_insertionSort lbGE _, List.perm_insertionSort lbGE _, ?_, ?_, rfl, ?_⟩
  · unfold lbMetrics
    rw [List.map_map]
    exact List.map_id _
  · intro lr hlr
    have hmem : lr ∈ lbMetrics facts hasId hasCy hasLA hasLD :=
      (List.perm_insertionSort lbGE _).mem_iff.mp hlr
    rcases List.mem_map.mp hmem with ⟨a, _, rfl⟩
    exact ⟨rfl, rfl⟩
  · unfold lbChart
    exact List.length_take_le 20 _

/-- Witness for the amended C5 at the example rows (id and measure columns
absent, so all aggregates fall back to the group row count): the a entry
has PR_COUNT 2 and the output is sorted descending. -/
theorem leaderboard_reduce_spec_witness :
    ({ author := "a", prCount := 2, avgCycle := 2, avgLA := 2, avgLD := 2 } : LbRow)
        ∈ lbSorted exLb false false false false ∧
    ({ author := "a", prCount := 2, avgCycle := 2, avgLA := 2, avgLD := 2 } : LbRow).prCount
        = (if false then ((groupRows exLb "a").map FactRow.prId).dedup.length
          else (groupRows exLb "a").length) ∧
    List.Sorted lbGE (lbSorted exLb false false false false) :=
  ⟨by decide,
    ((leaderboard_reduce_spec exLb false false false false).2.2.2.1
      { author := "a", prCount := 2, avgCycle := 2, avgLA := 2, avgLD := 2 }
      (by decide)).1,
    (leaderboard_reduce_spec exLb false false false false).1⟩

/-- C10: when the id column is absent (and likewise each numeric measure
column), the leaderboard silently falls back to the raw group row count for
PR_COUNT and for each absent mean, raising no error: the page still
produces its metrics, and every entry carries the row count of its group in
each fallback position. -/
theorem leaderboard_missing_column_fallbacks (df : Table)
    (hne : df.isEmpty = false) (hau : "PR_AUTHOR" ∈ df.cols)
    (hid : "PR_ID" ∉ df.cols) (hcy : "PR_CYCLE_TIME_HOURS" ∉ df.cols)
    (hla : "LINES_ADDED" ∉ df.cols) (hld : "LINES_DELETED" ∉ df.cols) :
    lbPage df = LbRes.ok (lbSorted df.rows false false false false) ∧
    ∀ lr ∈ lbSorted df.rows false false false false,
      lr.prCount = (groupRows df.rows lr.author).length ∧
      lr.avgCycle = ((groupRows df.rows lr.author).length : Rat) ∧
      lr.avgLA = ((groupRows df.rows lr.author).length : Rat) ∧
      lr.avgLD = ((groupRows df.rows lr.author).length : Rat) := by
  constructor
  · unfold lbPage
    simp [hne, hau, hid, hcy, hla, hld]
  · intro lr hlr
    have hmem : lr ∈ lbMetrics df.rows false false false false :=
      (List.perm_insertionSort lbGE _).mem_iff.mp hlr
    rcases List.mem_map.mp hmem with ⟨a, _, rfl⟩
    exact ⟨rfl, rfl, rfl, rfl⟩

/-- A non-empty fact table whose schema has the author column but lacks the
id and numeric measure columns. -/
def lbNoIdTable : Table :=
  { cols := ["REPO", "PR_AUTHOR"], rows := exLb }

/-- Witness for C10 at a concrete table without the id and measure
columns: the a entry carries its group row count 2 everywhere. -/
theorem leaderboard_missing_column_fallbacks_witness :
    lbNoIdTable.isEmpty = false ∧ "PR_AUTHOR" ∈ lbNoIdTable.cols ∧
    "PR_ID" ∉ lbNoIdTable.cols ∧
    lbPage lbNoIdTable = LbRes.ok (lbSorted lbNoIdTable.rows false false false false) ∧
    ({ author := "a", prCount := 2, avgCycle := 2, avgLA := 2, avgLD := 2 } : LbRow).prCount
      = (groupRows lbNoIdTable.rows "a").length :=
  ⟨rfl, by decide, by decide,
    (leaderboard_missing_column_fallbacks lbNoIdTable rfl (by decide) (by decide)
      (by decide) (by decide) (by decide)).1,
    ((leaderboard_missing_column_fallbacks lbNoIdTable rfl (by decide) (by decide)
      (by decide) (by decide) (by decide)).2
      { author := "a", prCount := 2, avgCycle := 2, avgLA := 2, avgLD := 2 }
      (by decide)).1⟩

/-!
Query gateway claim theorems.
-/

/-- A constant warehouse used by the concrete cache fixtures. -/
def srcConst : String → Table := fun _ => { cols := [], rows := [] }

/-- C6 counterexample: the entry point the pages actually use, the
undecorated `utils/snowflake.py` `run_query`, performs a warehouse round
trip on every call: issuing the same query twice in immediate succession
produces two calls, not one. -/
theorem pages_run_query_not_cached :
    (utils_run_query srcConst "SELECT * FROM FACT_PR_CYCLE_TIME"
      (utils_run_query srcConst "SELECT * FROM FACT_PR_CYCLE_TIME"
        { entries := [], calls := 0 }).2).2.calls ≠ 1 := by decide

/-- C6 amended: the cached `run_query` of `app_advanced.py` has the claimed
behaviour: after a fetch at time n1, a repeated identical query within the
600 second freshness window returns the identical stored table with no
further warehouse call, and a repeat after the window expires performs a
fresh warehouse call; the undecorated `utils/snowflake.py` `run_query` used
by the files under `pages/` instead calls the warehouse on every
invocation. -/
theorem run_query_cache_semantics (src : String → Table) (sql : String)
    (st0 : CacheState) (n1 n2 : Nat)
    (hmiss : lookupFresh n1 sql st0.entries = none) :
    (run_query src n1 sql st0).1 = src sql ∧
    (run_query src n1 sql st0).2.calls = st0.calls + 1 ∧
    (n2 < n1 + cacheTTL →
      run_query src n2 sql (run_query src n1 sql st0).2
        = ((run_query src n1 sql st0).1, (run_query src n1 sql st0).2)) ∧
    (n1 + cacheTTL ≤ n2 →
      (run_query src n2 sql (run_query src n1 sql st0).2).1 = src sql ∧
      (run_query src n2 sql (run_query src n1 sql st0).2).2.calls
        = (run_query src n1 sql st0).2.calls + 1) ∧
    (∀ st1 : CacheState, (utils_run_query src sql st1).2.calls = st1.calls + 1 ∧
      (utils_run_query src sql st1).1 = src sql) := by
  have h1 : run_query src n1 sql st0
      = (src sql, { entries := (sql, n1, src sql) ::
          st0.entries.filter (fun en => decide (en.1 ≠ sql)), calls := st0.calls + 1 }) := by
    unfold run_query
    rw [hmiss]
  have hlook : ∀ m : Nat, lookupFresh m sql ((sql, n1, src sql) ::
      st0.entries.filter (fun en => decide (en.1 ≠ sql)))
        = if m < n1 + cacheTTL then some (src sql) else none := by
    intro m
    unfold lookupFresh
    rw [List.lookup_cons_self]
  refine ⟨by rw [h1], by rw [h1], ?_, ?_, ?_⟩
  · intro hfresh
    rw [h1]
    unfold run_query
    rw [hlook n2, if_pos hfresh]
  · intro hexp
    rw [h1]
    unfold run_query
    rw [hlook n2, if_neg (Nat.not_lt.mpr hexp)]
    exact ⟨rfl, rfl⟩
  · intro st1
    exact ⟨rfl, rfl⟩

/-- Witness for the amended C6: a first fetch against an empty cache at
time 0 calls the warehouse once. -/
theorem run_query_cache_semantics_witness :
    lookupFresh 0 "SELECT 1" (CacheState.mk [] 0).entries = none ∧
    (run_query srcConst 0 "SELECT 1" (CacheState.mk [] 0)).2.calls
      = (CacheState.mk [] 0).calls + 1 :=
  ⟨rfl, (run_query_cache_semantics srcConst "SELECT 1" (CacheState.mk [] 0) 0 1 rfl).2.1⟩
